import Mathlib

/-
Verification of the database connection core (MySQL engine connection,
connection registry, query execution and schema introspection) against its
natural-language specification.

The Python sources are shallowly embedded: each method of
src/database/mysql.py and src/tools/connection_tools.py that the claims
touch becomes an executable Lean function.  The engine behind the wire
protocol (PyMySQL / aiomysql) is a parameter of every function that talks
to it: an `ExecOutcome` (what `cursor.execute` did), a handshake result,
the catalog contents, or close-call failure flags.  Python strings are
modelled by `String`, with the `str` methods the source uses (`strip`,
`lower`, `startswith`, slicing, `in`) re-implemented over the underlying
character list so that every definition evaluates inside the kernel.
Python `float` timing values are abstracted to a `Nat` tick parameter:
no claim depends on them.
-/

namespace DB

/-- Python `str.lower()`: lower-case every character. -/
def pyLower (s : String) : String := ⟨s.data.map Char.toLower⟩

/-- Python `str.strip()`: drop whitespace from both ends. -/
def pyStrip (s : String) : String :=
  ⟨((s.data.dropWhile Char.isWhitespace).reverse.dropWhile Char.isWhitespace).reverse⟩

/-- Python `s.startswith(p)`. -/
def pyStartsWith (s p : String) : Bool := p.data.isPrefixOf s.data

/-- Python slicing `s[n:]`: drop the first `n` characters. -/
def pyDrop (s : String) (n : Nat) : String := ⟨s.data.drop n⟩

/-- Python `p in s`: substring containment. -/
def pyContains (s p : String) : Bool := go s.data
where go : List Char → Bool
  | [] => p.data.isEmpty
  | c :: t => p.data.isPrefixOf (c :: t) || go t

/-- Values appearing in result rows (a cell of a Python row dict). -/
inductive Value where
  | intV (n : Int)
  | strV (s : String)
  | nullV
deriving DecidableEq, Repr

/-- A result row: Python dict mapping column name to value
(base.py stores rows as `Dict[str, Any]`). -/
abbrev Row := List (String × Value)

/-- QueryResult dataclass from src/database/base.py.  `execution_time`
is the abstract tick, see the module comment. -/
structure QueryResult where
  success : Bool
  data : List Row
  columns : List String
  row_count : Nat
  execution_time : Nat
  error_message : Option String := none
  sql_query : Option String := none
deriving DecidableEq, Repr

/-- The error taxonomy of src/database/base.py: DatabaseConnectionError,
DatabaseQueryError, DatabaseConfigError, and DatabaseTimeoutError (in
Python a subclass of DatabaseQueryError, here its own constructor, which
keeps the two distinguishable exactly as the subclass does). -/
inductive DbError where
  | connectionError (msg : String)
  | queryError (msg : String)
  | timeoutError (msg : String)
  | configError (msg : String)
deriving DecidableEq, Repr

/-- Read/write classification shared by `execute_query` and
`async_execute_query` in mysql.py:
`query.strip().lower().startswith(('select', 'show', 'describe', 'explain'))`. -/
def isReadQuery (query : String) : Bool :=
  let query_lower := pyLower (pyStrip query)
  pyStartsWith query_lower "select" || pyStartsWith query_lower "show" ||
    pyStartsWith query_lower "describe" || pyStartsWith query_lower "explain"

/-- Modelled from the spec: classification "based solely on the first
token after trimming whitespace" — the first whitespace-delimited token
of the trimmed, lower-cased query is compared against the four read
keywords.  This follows the spec text, for comparison with the
source-derived `isReadQuery`. -/
def isReadQueryByFirstToken (query : String) : Bool :=
  let tok : String := ⟨(pyLower (pyStrip query)).data.takeWhile (fun c => !c.isWhitespace)⟩
  tok == "select" || tok == "show" || tok == "describe" || tok == "explain"

/-- Behaviour of the engine under `cursor.execute` in the blocking model:
either the statement ran (with the cursor description, the produced rows
and `cursor.rowcount`), or PyMySQL raised. -/
inductive ExecOutcome where
  | ok (description : List String) (rows : List Row) (rowcount : Int)
  | operationalError (msg : String)
  | mysqlError (msg : String)
  | otherError (msg : String)
deriving DecidableEq, Repr

/-- The truncation warning text built in both execution paths of mysql.py. -/
def truncationWarning (maxRows : Nat) : String :=
  "Results may be truncated (returned " ++ toString maxRows ++ " rows, max_rows limit)"

/-- MySQLConnection.execute_query.  Besides the connection state and the
engine outcome it returns the warning string the source hands to
`logger.info` (second component) — the source computes it but never
stores it in the QueryResult.  `cursor.fetchmany(max_rows)` is
`rows.take maxRows`.  The session-timeout directive, commit and wall
clock timing have no observable effect on the result and are omitted. -/
def execute_query (query : String) (maxRows timeout : Nat) (connected : Bool)
    (outcome : ExecOutcome) (t : Nat) : Except DbError QueryResult × Option String :=
  if !connected then
    (.error (.connectionError "Not connected to database"), none)
  else
    match outcome with
    | .ok description rows rowcount =>
      if isReadQuery query then
        let fetched := rows.take maxRows
        let warning : Option String :=
          if fetched.length = maxRows then some (truncationWarning maxRows) else none
        let data := fetched
        let columns := description
        let row_count := data.length
        (.ok { success := true, data := data, columns := columns, row_count := row_count,
               execution_time := t, sql_query := some query }, warning)
      else
        (.ok { success := true, data := [[("affected_rows", Value.intV rowcount)]],
               columns := ["affected_rows"], row_count := 1,
               execution_time := t, sql_query := some query }, none)
    | .operationalError msg =>
      if pyContains (pyLower msg) "max_execution_time" then
        (.error (.timeoutError ("Query exceeded " ++ toString timeout ++ " second timeout")), none)
      else
        (.error (.queryError ("MySQL operational error: " ++ msg)), none)
    | .mysqlError msg => (.error (.queryError ("MySQL error: " ++ msg)), none)
    | .otherError msg => (.error (.queryError ("Unexpected error: " ++ msg)), none)

/-- Behaviour of the engine in the non-blocking model: the awaited
`cursor.execute` either ran, hit the scheduler timeout
(`asyncio.TimeoutError` from `asyncio.wait_for`), or raised some other
exception. -/
inductive AsyncOutcome where
  | ok (description : List String) (rows : List Row) (rowcount : Int)
  | timeout
  | raised (msg : String)
deriving DecidableEq, Repr

/-- MySQLConnection.async_execute_query.  Same read/write handling as the
blocking path; the scheduler timeout is re-raised as DatabaseTimeoutError
while every other exception is swallowed into a failure-flagged
QueryResult.  As in `execute_query`, the second component is the logged
truncation warning, which the returned QueryResult does not carry. -/
def async_execute_query (query : String) (maxRows timeout : Nat) (poolReady : Bool)
    (outcome : AsyncOutcome) (t : Nat) : Except DbError QueryResult × Option String :=
  if !poolReady then
    (.error (.connectionError "Not connected to database (async pool not initialized)"), none)
  else
    match outcome with
    | .ok description rows rowcount =>
      if isReadQuery query then
        let data := rows.take maxRows
        let columns := description
        let row_count := data.length
        let warning : Option String :=
          if data.length = maxRows then some (truncationWarning maxRows) else none
        (.ok { success := true, data := data, columns := columns, row_count := row_count,
               execution_time := t, sql_query := some query }, warning)
      else
        (.ok { success := true, data := [[("affected_rows", Value.intV rowcount)]],
               columns := ["affected_rows"], row_count := 1,
               execution_time := t, sql_query := some query }, none)
    | .timeout =>
      (.error (.timeoutError ("Query timeout after " ++ toString timeout ++ " seconds")), none)
    | .raised msg =>
      (.ok { success := false, data := [], columns := [], row_count := 0,
             execution_time := t,
             error_message := some ("Query execution failed: " ++ msg),
             sql_query := some query }, none)

/-- Connection configuration dict: the keys of interest to
MySQLConnection.connect.  An absent key is `none` (other keys — port,
charset, ssl, autocommit, connect_timeout — only shape the engine
parameters and are irrelevant to the verified claims). -/
structure ConnectConfig where
  host : Option String := none
  user : Option String := none
  database : Option String := none
  password : Option String := none
deriving DecidableEq, Repr

/-- Python-level exceptions that can occur inside the try-block of
MySQLConnection.connect: a raised DatabaseConfigError or a
`pymysql.Error` from the handshake. -/
inductive PyExc where
  | dbConfig (msg : String)
  | pymysqlErr (msg : String)
deriving DecidableEq, Repr

/-- MySQLConnection._get_password: literal password, or `env:VAR`
indirection resolved against the process environment; an unset (or
empty) referenced variable raises DatabaseConfigError. -/
def get_password (config : ConnectConfig) (env : String → Option String) :
    Except PyExc String :=
  let password := config.password.getD ""
  if pyStartsWith password "env:" then
    let env_var := pyDrop password 4
    let password := (env env_var).getD ""
    if password == "" then
      .error (.dbConfig ("Environment variable " ++ env_var ++ " not set"))
    else
      .ok password
  else
    .ok password

/-- Body of the try-block of MySQLConnection.connect: validate the
required keys (raising DatabaseConfigError), resolve the password, then
attempt the engine handshake (`pymysql.connect`, the first network
activity, given as a parameter: the version string on success or a
`pymysql.Error`).  The second component records whether the network was
reached. -/
def connectBody (config : ConnectConfig) (env : String → Option String)
    (handshake : Except String String) : Except PyExc String × Bool :=
  if config.host.isNone then
    (.error (.dbConfig "Missing required config key: host"), false)
  else if config.user.isNone then
    (.error (.dbConfig "Missing required config key: user"), false)
  else if config.database.isNone then
    (.error (.dbConfig "Missing required config key: database"), false)
  else
    match get_password config env with
    | .error e => (.error e, false)
    | .ok _password =>
      match handshake with
      | .error m => (.error (.pymysqlErr m), true)
      | .ok version => (.ok version, true)

/-- MySQLConnection.connect: the try-block body wrapped in the two
except-handlers of the source — `except pymysql.Error` re-raises as
DatabaseConnectionError with a "MySQL connection failed" message, and
the catch-all `except Exception` re-raises EVERY other exception
(including the DatabaseConfigError raised by the validation and by
_get_password) as DatabaseConnectionError with an "Unexpected connection
error" message. -/
def connect (config : ConnectConfig) (env : String → Option String)
    (handshake : Except String String) : Except DbError Bool × Bool :=
  match connectBody config env handshake with
  | (.ok _version, net) => (.ok true, net)
  | (.error (.pymysqlErr m), net) =>
    (.error (.connectionError ("MySQL connection failed: " ++ m)), net)
  | (.error (.dbConfig m), net) =>
    (.error (.connectionError ("Unexpected connection error: " ++ m)), net)

/-- Session state of the blocking model: the PyMySQL cursor and
connection handles (abstracted to opaque ids) and the `_is_connected`
flag. -/
structure SyncConnState where
  cursor : Option Nat
  connection : Option Nat
  is_connected : Bool
deriving DecidableEq, Repr

/-- MySQLConnection.disconnect.  `cursorCloseFails` and `connCloseFails`
say whether the corresponding `.close()` call raises; a raise jumps to
the except-handler, which swallows it, and the finally-block clears
`_is_connected` on every path — so the function is total: no exception
escapes. -/
def disconnect (s : SyncConnState) (cursorCloseFails connCloseFails : Bool) :
    SyncConnState :=
  if s.cursor.isSome && cursorCloseFails then
    { s with is_connected := false }
  else
    let s1 : SyncConnState := { s with cursor := none }
    if s1.connection.isSome && connCloseFails then
      { s1 with is_connected := false }
    else
      { s1 with connection := none, is_connected := false }

/-- Session state of the non-blocking model: the aiomysql pool handle
and the `_is_connected` flag. -/
structure AsyncConnState where
  async_pool : Option Nat
  is_connected : Bool
deriving DecidableEq, Repr

/-- MySQLConnection.async_disconnect: close the pool (a raise is
swallowed by the except-handler), with the finally-block clearing
`_is_connected` on every path. -/
def async_disconnect (s : AsyncConnState) (poolCloseFails : Bool) : AsyncConnState :=
  if s.async_pool.isSome && poolCloseFails then
    { s with is_connected := false }
  else
    { s with async_pool := none, is_connected := false }

/-- TableSchema dataclass from src/database/base.py. -/
structure TableSchema where
  name : String
  columns : List Row
  primary_keys : List String
  foreign_keys : List Row
  indexes : List Row
  row_count : Int
  create_statement : Option String := none
deriving DecidableEq, Repr

/-- Aggregated output of MySQLConnection._get_table_details for one
table (columns, primary keys, foreign keys, indexes assembled from the
INFORMATION_SCHEMA detail queries). -/
structure TableDetails where
  columns : List Row := []
  primary_keys : List String := []
  foreign_keys : List Row := []
  indexes : List Row := []
deriving DecidableEq, Repr

/-- The catalog and detail queries MySQLConnection issues while building
a table schema, in the order the source issues them.  `checkExists` is
the INFORMATION_SCHEMA.TABLES existence probe; the next three are the
detail queries of _get_table_details; `rowCountQ` is `SELECT COUNT(*)`
and `createTableQ` is `SHOW CREATE TABLE`. -/
inductive CatalogQuery where
  | checkExists
  | columnsQ
  | foreignKeysQ
  | indexesQ
  | rowCountQ
  | createTableQ
deriving DecidableEq, Repr

/-- MySQLConnection.get_table_schema.  `existing` is the set of
TABLE_NAME values INFORMATION_SCHEMA.TABLES holds for the configured
database; `details`, `rowCountOf` and `createOf` are what the detail
queries would report per table.  Returns the optional schema together
with the trace of queries issued: the existence check runs first and,
when it returns no row, the method returns None having issued nothing
else. -/
def get_table_schema (existing : List String) (details : String → TableDetails)
    (rowCountOf : String → Int) (createOf : String → Option String)
    (table_name : String) : Option TableSchema × List CatalogQuery :=
  let check_rows := existing.filter (fun tn => tn == table_name)
  if check_rows.isEmpty then
    (none, [.checkExists])
  else
    let d := details table_name
    let row_count := rowCountOf table_name
    let create_statement := createOf table_name
    (some { name := table_name, columns := d.columns, primary_keys := d.primary_keys,
            foreign_keys := d.foreign_keys, indexes := d.indexes,
            row_count := row_count, create_statement := create_statement },
     [.checkExists, .columnsQ, .foreignKeysQ, .indexesQ, .rowCountQ, .createTableQ])

/-- MySQLConnection.async_get_table_schema: same existence check first;
on a hit it builds the TableSchema from _get_table_details alone
(row_count defaults to 0 and no CREATE statement is fetched — the async
path issues neither `SELECT COUNT(*)` nor `SHOW CREATE TABLE`). -/
def async_get_table_schema (existing : List String) (details : String → TableDetails)
    (table_name : String) : Option TableSchema × List CatalogQuery :=
  let check_rows := existing.filter (fun tn => tn == table_name)
  if check_rows.isEmpty then
    (none, [.checkExists])
  else
    let d := details table_name
    (some { name := table_name, columns := d.columns, primary_keys := d.primary_keys,
            foreign_keys := d.foreign_keys, indexes := d.indexes,
            row_count := 0, create_statement := none },
     [.checkExists, .columnsQ, .foreignKeysQ, .indexesQ])

/-- Configuration record as the connection tools read it: only the
`type` key steers tool-level control flow. -/
structure ToolConfig where
  dbtype : Option String := some "mysql"
deriving DecidableEq, Repr

/-- Status dictionary a connection tool returns (the keys the claims
inspect). -/
structure ToolResult where
  success : Bool
  error : Option String := none
  message : Option String := none
deriving DecidableEq, Repr

/-- The process-wide registry `_active_connections` of
src/tools/connection_tools.py: a dict from connection name to the live
MySQLConnection instance (abstracted to an id). -/
abbrev Registry := List (String × Nat)

/-- connection_tools.get_connection: dictionary lookup by name. -/
def get_connection (reg : Registry) (name : String) : Option Nat :=
  reg.lookup name

/-- connection_tools.connect.  Control flow of the source: an
already-active name fails immediately; otherwise the config is resolved
(the given one, else the per-name file, whose absence is a soft error);
a non-mysql type is rejected; `create_mysql_connection` performs the
engine handshake (`handshakeOk` — a raise lands in the catch-all and
nothing is registered); on success the connection is stored in the
registry BEFORE `test_connection` runs, and the returned `success` field
is the test outcome while the registry keeps the entry either way. -/
def tool_connect (reg : Registry) (name : String)
    (config : Option ToolConfig) (fileConfig : Option ToolConfig)
    (handshakeOk : Bool) (testOk : Bool) (testMsg : String) (newConn : Nat) :
    ToolResult × Registry :=
  if (reg.lookup name).isSome then
    ({ success := false,
       error := some ("Connection " ++ name ++ " is already active") }, reg)
  else
    match (match config with | some c => some c | none => fileConfig) with
    | none => ({ success := false, error := some "Config file not found" }, reg)
    | some cfg =>
      let db_type := pyLower (cfg.dbtype.getD "mysql")
      if db_type == "mysql" then
        if handshakeOk then
          let reg2 : Registry := (name, newConn) :: reg
          ({ success := testOk, message := some testMsg }, reg2)
        else
          ({ success := false, error := some "Connection failed" }, reg)
      else
        ({ success := false,
           error := some ("Unsupported database type: " ++ db_type) }, reg)

/-- Helper: a string starting with a nonempty literal is not empty. -/
theorem append_ne_empty_of_left_ne_empty (s t : String) (h : s.data ≠ []) :
    s ++ t ≠ "" := by
  intro hc
  have hd := congrArg String.data hc
  rw [String.data_append] at hd
  have : s.data = [] := (List.append_eq_nil.mp hd).1
  exact h this

/-- C1 (code_bug record): a config missing the required key `host`, and a
config whose password indirection `env:PW` is unresolved, both make
`connect` fail before any network attempt (second component false) — but
the error surfaced is DatabaseConnectionError wrapping the config
message, because the catch-all except-handler converts the
DatabaseConfigError raised inside the try-block; it is never a
DatabaseConfigError, contrary to the claim and to the method docstring. -/
theorem connect_wraps_config_errors_before_network :
    connect { user := some "u", database := some "d" } (fun _ => none) (.ok "8.0.32")
      = (.error (.connectionError "Unexpected connection error: Missing required config key: host"),
         false) ∧
    connect { host := some "localhost", user := some "u", database := some "d",
              password := some "env:PW" } (fun _ => none) (.ok "8.0.32")
      = (.error (.connectionError "Unexpected connection error: Environment variable PW not set"),
         false) ∧
    ∀ m1 m2 : String, DbError.connectionError m1 ≠ DbError.configError m2 := by
  refine ⟨rfl, rfl, ?_⟩
  intro m1 m2 h
  exact DbError.noConfusion h

/-- C2 (counterexample): a read whose fetch is cut at the cap
(three rows available, `max_rows = 2`) hands back a QueryResult equal in
every field to the one of an untruncated fetch of the same two rows —
the truncation information exists only in the logged warning (second
component), so the QueryResult carries no truncation flag. -/
theorem truncated_result_indistinguishable_cex :
    (execute_query "select a from t" 2 30 true
        (.ok ["a"] [[("a", Value.intV 1)], [("a", Value.intV 2)], [("a", Value.intV 3)]] 0) 5).fst
      = (execute_query "select a from t" 5 30 true
          (.ok ["a"] [[("a", Value.intV 1)], [("a", Value.intV 2)]] 0) 5).fst ∧
    (execute_query "select a from t" 2 30 true
        (.ok ["a"] [[("a", Value.intV 1)], [("a", Value.intV 2)], [("a", Value.intV 3)]] 0) 5).snd
      = some (truncationWarning 2) ∧
    (execute_query "select a from t" 5 30 true
        (.ok ["a"] [[("a", Value.intV 1)], [("a", Value.intV 2)]] 0) 5).snd = none :=
  ⟨rfl, rfl, rfl⟩

/-- C2 (amended): in both execution models the truncation warning is
computed — and handed to the logger — exactly when the fetch returned
`max_rows` rows, but the QueryResult itself does not carry it: the
result is a function of the fetched rows alone, identical for a
truncated and an untruncated fetch that yield the same rows. -/
theorem truncation_warning_logged_not_carried (q : String) (maxRows timeout t : Nat)
    (desc : List String) (rows rows2 : List Row) (rc : Int)
    (hread : isReadQuery q = true) :
    ((execute_query q maxRows timeout true (.ok desc rows rc) t).snd
        = some (truncationWarning maxRows) ↔ (rows.take maxRows).length = maxRows) ∧
    (rows.take maxRows = rows2.take maxRows →
      (execute_query q maxRows timeout true (.ok desc rows rc) t).fst
        = (execute_query q maxRows timeout true (.ok desc rows2 rc) t).fst) ∧
    ((async_execute_query q maxRows timeout true (.ok desc rows rc) t).snd
        = some (truncationWarning maxRows) ↔ (rows.take maxRows).length = maxRows) ∧
    (rows.take maxRows = rows2.take maxRows →
      (async_execute_query q maxRows timeout true (.ok desc rows rc) t).fst
        = (async_execute_query q maxRows timeout true (.ok desc rows2 rc) t).fst) := by
  unfold execute_query async_execute_query
  simp only [Bool.not_true, Bool.false_eq_true, if_false, hread, if_true]
  refine ⟨?_, ?_, ?_, ?_⟩
  · constructor
    · intro hw
      split_ifs at hw with h
      exact h
    · intro h
      simp [h]
  · intro h
    simp [h]
  · constructor
    · intro hw
      split_ifs at hw with h
      exact h
    · intro h
      simp [h]
  · intro h
    simp [h]

/-- C2 (witness for the amended theorem): a one-row fetch against
`max_rows = 1` logs the truncation warning. -/
theorem truncation_warning_logged_not_carried_witness :
    (execute_query "select 1" 1 30 true (.ok ["1"] [[("1", Value.intV 1)]] 0) 2).snd
      = some (truncationWarning 1) :=
  ((truncation_warning_logged_not_carried "select 1" 1 30 2 ["1"]
      [[("1", Value.intV 1)]] [] 0 (by decide)).1).mpr (by decide)

/-- C3: in the non-blocking model a scheduler timeout surfaces as
DatabaseTimeoutError (a constructor distinct from the generic
DatabaseQueryError), while every other execution failure is returned as
a failure-flagged QueryResult — empty data, row_count 0, a non-empty
error message — without raising. -/
theorem async_timeout_raises_other_failures_return (q msg : String)
    (maxRows timeout t : Nat) :
    (async_execute_query q maxRows timeout true .timeout t).fst
      = .error (.timeoutError ("Query timeout after " ++ toString timeout ++ " seconds")) ∧
    (∀ m1 m2 : String, DbError.timeoutError m1 ≠ DbError.queryError m2) ∧
    ∃ r : QueryResult,
      (async_execute_query q maxRows timeout true (.raised msg) t).fst = .ok r ∧
      r.success = false ∧ r.data = [] ∧ r.row_count = 0 ∧
      ∃ emsg, r.error_message = some emsg ∧ emsg ≠ "" := by
  refine ⟨rfl, fun m1 m2 h => DbError.noConfusion h, ?_⟩
  refine ⟨_, rfl, rfl, rfl, rfl, "Query execution failed: " ++ msg, rfl, ?_⟩
  exact append_ne_empty_of_left_ne_empty _ _ (by decide)

/-- C4 (counterexample): the query `showcase` is classified as a READ by
the source (its trimmed lower-cased text starts with `show`), although
its first whitespace-delimited token, `showcase`, is not one of the four
read keywords — the claim says such a query is a write. -/
theorem showcase_classified_read_cex :
    isReadQuery "showcase" = true ∧ isReadQueryByFirstToken "showcase" = false := by
  decide

/-- C4 (amended): classification is case-insensitive and prefix-based on
the trimmed query — read exactly when the trimmed lower-cased text
starts with one of select/show/describe/explain.  Every query whose
first token IS one of the keywords is classified read, but the converse
fails: `showcase` is also read. -/
theorem read_classification_prefix_based :
    (∀ q : String, isReadQueryByFirstToken q = true → isReadQuery q = true) ∧
    (∀ q : String, isReadQuery q = true ↔
      (pyStartsWith (pyLower (pyStrip q)) "select" = true ∨
       pyStartsWith (pyLower (pyStrip q)) "show" = true ∨
       pyStartsWith (pyLower (pyStrip q)) "describe" = true ∨
       pyStartsWith (pyLower (pyStrip q)) "explain" = true)) ∧
    isReadQuery "showcase" = true := by
  refine ⟨?_, ?_, by decide⟩
  · intro q h
    have hpre : ∀ k : String,
        ((⟨(pyLower (pyStrip q)).data.takeWhile (fun c => !c.isWhitespace)⟩ : String) == k)
            = true →
        pyStartsWith (pyLower (pyStrip q)) k = true := by
      intro k hk
      have hd : (pyLower (pyStrip q)).data.takeWhile (fun c => !c.isWhitespace) = k.data :=
        congrArg String.data (eq_of_beq hk)
      unfold pyStartsWith
      rw [List.isPrefixOf_iff_prefix, ← hd]
      exact List.takeWhile_prefix _
    simp only [isReadQueryByFirstToken, Bool.or_eq_true] at h
    simp only [isReadQuery, Bool.or_eq_true]
    rcases h with ((h | h) | h) | h
    · exact Or.inl (Or.inl (Or.inl (hpre _ h)))
    · exact Or.inl (Or.inl (Or.inr (hpre _ h)))
    · exact Or.inl (Or.inr (hpre _ h))
    · exact Or.inr (hpre _ h)
  · intro q
    simp only [isReadQuery, Bool.or_eq_true, or_assoc]

/-- C5: a read query that executes successfully, in either model,
yields a result with at most `max_rows` rows and `row_count` equal to
the number of rows returned. -/
theorem read_result_row_bounds (q : String) (maxRows timeout t : Nat)
    (desc : List String) (rows : List Row) (rc : Int) (r ra : QueryResult)
    (hread : isReadQuery q = true)
    (hs : (execute_query q maxRows timeout true (.ok desc rows rc) t).fst = .ok r)
    (ha : (async_execute_query q maxRows timeout true (.ok desc rows rc) t).fst = .ok ra) :
    r.success = true ∧ r.data.length ≤ maxRows ∧ r.row_count = r.data.length ∧
    ra.success = true ∧ ra.data.length ≤ maxRows ∧ ra.row_count = ra.data.length := by
  unfold execute_query at hs
  unfold async_execute_query at ha
  simp only [Bool.not_true, Bool.false_eq_true, if_false, hread, if_true,
    Except.ok.injEq] at hs ha
  subst hs
  subst ha
  refine ⟨rfl, ?_, rfl, rfl, ?_, rfl⟩ <;>
    simp [List.length_take]

/-- C5 (witness): a concrete successful read under cap 3 returns one row. -/
theorem read_result_row_bounds_witness :
    ({ success := true, data := [[("1", Value.intV 1)]], columns := ["1"], row_count := 1,
       execution_time := 2, sql_query := some "select 1" } : QueryResult).data.length ≤ 3 :=
  (read_result_row_bounds "select 1" 3 30 2 ["1"] [[("1", Value.intV 1)]] 0 _ _
    (by decide) rfl rfl).2.1

/-- C6: a write statement that executes successfully, in either model,
yields exactly one synthetic row binding `affected_rows` to the
engine-reported count, with columns `[affected_rows]` and row_count 1. -/
theorem write_result_affected_rows (q : String) (maxRows timeout t : Nat)
    (desc : List String) (rows : List Row) (rc : Int) (r ra : QueryResult)
    (hwrite : isReadQuery q = false)
    (hs : (execute_query q maxRows timeout true (.ok desc rows rc) t).fst = .ok r)
    (ha : (async_execute_query q maxRows timeout true (.ok desc rows rc) t).fst = .ok ra) :
    r.data = [[("affected_rows", Value.intV rc)]] ∧ r.columns = ["affected_rows"] ∧
    r.row_count = 1 ∧
    ra.data = [[("affected_rows", Value.intV rc)]] ∧ ra.columns = ["affected_rows"] ∧
    ra.row_count = 1 := by
  unfold execute_query at hs
  unfold async_execute_query at ha
  simp only [Bool.not_true, Bool.false_eq_true, if_false, hwrite,
    Except.ok.injEq] at hs ha
  subst hs
  subst ha
  exact ⟨rfl, rfl, rfl, rfl, rfl, rfl⟩

/-- C6 (witness): a concrete successful update reporting 7 affected rows. -/
theorem write_result_affected_rows_witness :
    ({ success := true, data := [[("affected_rows", Value.intV 7)]],
       columns := ["affected_rows"], row_count := 1, execution_time := 2,
       sql_query := some "update t set a = 1" } : QueryResult).row_count = 1 :=
  (write_result_affected_rows "update t set a = 1" 1000 30 2 [] [] 7 _ _
    (by decide) rfl rfl).2.2.1

/-- C7: a connect call for a name that already has an active registry
entry fails (success false, already-active error) and returns the
registry exactly as it was: the existing connection is untouched and
nothing new is registered. -/
theorem connect_already_active_fails_unchanged (reg : Registry) (name testMsg : String)
    (config fileConfig : Option ToolConfig) (handshakeOk testOk : Bool) (newConn : Nat)
    (h : (reg.lookup name).isSome = true) :
    tool_connect reg name config fileConfig handshakeOk testOk testMsg newConn
      = ({ success := false,
           error := some ("Connection " ++ name ++ " is already active") }, reg) := by
  unfold tool_connect
  rw [if_pos h]

/-- C7 (witness): connecting the already-active name db1 fails and the
registry keeps its single entry. -/
theorem connect_already_active_fails_unchanged_witness :
    tool_connect [("db1", 0)] "db1" none none true true "ok" 1
      = ({ success := false,
           error := some ("Connection " ++ "db1" ++ " is already active") }, [("db1", 0)]) :=
  connect_already_active_fails_unchanged [("db1", 0)] "db1" "ok" none none true true 1
    (by decide)

/-- C8: disconnect (both variants) is total — teardown failures are
swallowed, the flag is cleared on every path — and idempotent: repeating
it changes nothing, and after a failure-free disconnect the session
resources are released and any further disconnect is exactly a no-op. -/
theorem disconnect_idempotent_never_raises (s : SyncConnState) (a : AsyncConnState)
    (f1 f2 g1 g2 p : Bool) :
    (disconnect s f1 f2).is_connected = false ∧
    disconnect (disconnect s f1 f2) f1 f2 = disconnect s f1 f2 ∧
    disconnect s false false
      = { cursor := none, connection := none, is_connected := false } ∧
    disconnect (disconnect s false false) g1 g2 = disconnect s false false ∧
    (async_disconnect a p).is_connected = false ∧
    async_disconnect (async_disconnect a p) p = async_disconnect a p ∧
    async_disconnect a false = { async_pool := none, is_connected := false } ∧
    async_disconnect (async_disconnect a false) g1 = async_disconnect a false := by
  obtain ⟨c, k, b⟩ := s
  obtain ⟨pl, b2⟩ := a
  cases c <;> cases k <;> cases pl <;> cases f1 <;> cases f2 <;> cases g1 <;>
    cases g2 <;> cases p <;> simp [disconnect, async_disconnect]

/-- C9: a table name with no row in the catalog makes both
get_table_schema variants return None after issuing only the existence
check — no column, foreign-key, index, COUNT(*) or SHOW CREATE query
runs. -/
theorem get_table_schema_absent_returns_none (existing : List String)
    (details : String → TableDetails) (rowCountOf : String → Int)
    (createOf : String → Option String) (table_name : String)
    (h : table_name ∉ existing) :
    get_table_schema existing details rowCountOf createOf table_name
      = (none, [.checkExists]) ∧
    async_get_table_schema existing details table_name = (none, [.checkExists]) := by
  have hf : existing.filter (fun tn => tn == table_name) = [] := by
    rw [List.filter_eq_nil_iff]
    intro a ha
    simp only [beq_iff_eq]
    intro hc
    exact h (hc ▸ ha)
  constructor <;> simp [get_table_schema, async_get_table_schema, hf]

/-- C9 (witness): asking for `orders` in a catalog holding only `users`
returns None after the existence check alone. -/
theorem get_table_schema_absent_returns_none_witness :
    get_table_schema ["users"] (fun _ => {}) (fun _ => 0) (fun _ => none) "orders"
      = (none, [.checkExists]) :=
  (get_table_schema_absent_returns_none ["users"] (fun _ => {}) (fun _ => 0)
    (fun _ => none) "orders" (by decide)).1

/-- C10: when the name is free, the handshake succeeds and the follow-up
SELECT 1 liveness test reports failure, the tool returns success false
yet the new connection stays registered under the name: a later lookup
finds it, and a later connect for the same name fails as
already-active, leaving the registry as it was. -/
theorem failed_test_connection_still_registered (reg : Registry) (name testMsg : String)
    (fileConfig : Option ToolConfig) (newConn : Nat)
    (hfree : reg.lookup name = none) :
    (tool_connect reg name (some {}) fileConfig true false testMsg newConn).fst.success
      = false ∧
    get_connection (tool_connect reg name (some {}) fileConfig true false testMsg newConn).snd
        name = some newConn ∧
    ∀ (config2 fileConfig2 : Option ToolConfig) (hs2 tk2 : Bool) (m2 : String) (c2 : Nat),
      tool_connect (tool_connect reg name (some {}) fileConfig true false testMsg newConn).snd
          name config2 fileConfig2 hs2 tk2 m2 c2
        = ({ success := false,
             error := some ("Connection " ++ name ++ " is already active") },
           (tool_connect reg name (some {}) fileConfig true false testMsg newConn).snd) := by
  have hmysql : pyLower "mysql" = "mysql" := by decide
  have hrun : tool_connect reg name (some {}) fileConfig true false testMsg newConn
      = ({ success := false, message := some testMsg }, (name, newConn) :: reg) := by
    unfold tool_connect
    rw [hfree]
    simp [hmysql]
  rw [hrun]
  refine ⟨rfl, by simp [get_connection, List.lookup], ?_⟩
  intro config2 fileConfig2 hs2 tk2 m2 c2
  unfold tool_connect
  simp [List.lookup]

/-- C10 (witness): on an empty registry, name prod, failing liveness
test — the connection with id 7 is still found under prod afterwards. -/
theorem failed_test_connection_still_registered_witness :
    get_connection (tool_connect [] "prod" (some {}) none true false "test failed" 7).snd
        "prod" = some 7 :=
  (failed_test_connection_still_registered [] "prod" "test failed" none 7 rfl).2.1

end DB
